import Mathlib

/-!
Shallow embedding of the SIETK chatbot request pipeline
(`src/app/api/chat/route.ts` and `src/lib/tavily-search.ts`).

Conventions of the embedding:
* JavaScript strings are Lean `String`s; JS truthiness of a string is
  emptiness (`s ≠ ""`).
* `Date.now()` timestamps are `Int` milliseconds, passed explicitly.
* The SHA-256 hex digest from node `crypto` is an external function; it is
  abstracted as a parameter `hsh : String → String` of the cache operations.
* An asynchronous call that has settled is an `Option String`:
  `some s` for a fulfilled promise with value `s`, `none` for a rejected one
  (`Promise.allSettled` branches on `status === 'fulfilled'`).
* The in-memory `Map` cache is an association list with JS `Map.set`
  semantics (replace in place, otherwise append).
-/

set_option autoImplicit false

/-- JS `String.prototype.toLowerCase()` modelled character-wise
(executable, kernel-reducible). -/
def lowerStr (s : String) : String :=
  String.mk (s.data.map Char.toLower)

/-- JS `String.prototype.toUpperCase()` modelled character-wise. -/
def upperStr (s : String) : String :=
  String.mk (s.data.map Char.toUpper)

/-- JS `String.prototype.trim()`: strip whitespace from both ends. -/
def trimStr (s : String) : String :=
  String.mk (((s.data.dropWhile Char.isWhitespace).reverse.dropWhile
      Char.isWhitespace).reverse)

/-- A chat message `{role, content}` as carried in the request body. -/
structure Message where
  role : String
  content : String
deriving DecidableEq, Repr

/-- Result record of `tieredRetrieval`: `{content, confidence, sources}`.
Confidence literals of the code (0.95, 0.85, 0.1, 0.9) are rationals. -/
structure RetrievalResult where
  content : String
  confidence : ℚ
  sources : List String
deriving DecidableEq, Repr

/-- A cache entry `{answer, timestamp}` as stored in the in-memory `Map`. -/
structure CacheEntry where
  answer : String
  timestamp : Int
deriving DecidableEq, Repr

/-- `query.toLowerCase().trim()`, the normalisation applied before hashing
in `getCached` and `setCache`. -/
def normalizeQuery (q : String) : String :=
  trimStr (lowerStr q)

/-- The cache key: hash of the normalised query
(`createHash('sha256').update(query.toLowerCase().trim()).digest('hex')`,
with the digest abstracted as `hsh`). -/
def cacheKeyOf (hsh : String → String) (q : String) : String :=
  hsh (normalizeQuery q)

/-- `cache.get(key)` on the association-list model of the JS `Map`. -/
def cacheLookup (cache : List (String × CacheEntry)) (k : String) : Option CacheEntry :=
  match cache with
  | [] => none
  | (k', e) :: rest => if k' = k then some e else cacheLookup rest k

/-- `cache.set(key, value)`: replace the entry for `key` in place if present,
otherwise append it. -/
def cacheInsert (cache : List (String × CacheEntry)) (k : String) (e : CacheEntry) :
    List (String × CacheEntry) :=
  match cache with
  | [] => [(k, e)]
  | (k', e') :: rest =>
    if k' = k then (k, e) :: rest else (k', e') :: cacheInsert rest k e

/-- `getCached(query)` from the route files: hash the normalised query, and
report a hit only when the entry is younger than 3600000 ms (1 hour). -/
def getCached (hsh : String → String) (cache : List (String × CacheEntry))
    (now : Int) (query : String) : Option String :=
  match cacheLookup cache (cacheKeyOf hsh query) with
  | some e => if now - e.timestamp < 3600000 then some e.answer else none
  | none => none

/-- `setCache(query, answer)`: unconditionally store
`{answer, timestamp: Date.now()}` under the hashed normalised query. -/
def setCache (hsh : String → String) (cache : List (String × CacheEntry))
    (now : Int) (query : String) (answer : String) : List (String × CacheEntry) :=
  cacheInsert cache (cacheKeyOf hsh query) ⟨answer, now⟩

/-- The alternation body of the general-chat regex in
`src/lib/tavily-search.ts`:
`/^(hi|hello|hey|greetings|thanks|thank you|good morning|good evening|bye)$/i`. -/
def generalChatPhrases : List String :=
  ["hi", "hello", "hey", "greetings", "thanks", "thank you",
   "good morning", "good evening", "bye"]

/-- `isGeneralChat`: the anchored case-insensitive regex test on
`userQuery.trim()` is full-string, case-insensitive equality with one of the
fixed phrases. -/
def isGeneralChat (q : String) : Bool :=
  generalChatPhrases.contains (lowerStr (trimStr q))

/-- Outcome of the Tier-2 race in `tieredRetrieval`: either
`Promise.allSettled` of the two searches won the race (each search settled
as fulfilled `some` or rejected `none`), or the 1.5 s timer rejected first. -/
inductive Tier2Outcome where
  | settled (exa tavily : Option String)
  | timedOut
deriving DecidableEq, Repr

/-- Lines 112–123 of `src/app/api/chat/route.ts`: map a rejected search to
`""`, return the `"No information found."` record when both are empty,
otherwise the fixed `EXA:`/`TAVILY:` template at confidence 0.85. -/
def tier2Settled (exaS tavilyS : Option String) : RetrievalResult :=
  let exa := exaS.getD ""
  let tavily := tavilyS.getD ""
  if exa = "" ∧ tavily = "" then
    ⟨"No information found.", 0, []⟩
  else
    ⟨"EXA: " ++ exa ++ "\n\nTAVILY: " ++ tavily, 0.85, ["Web Search"]⟩

/-- `tieredRetrieval(query)`, with the Tier-1 knowledge-base result and the
Tier-2 race outcome passed as oracles. The returned `Bool` records whether
Tier 2 (the web-search race) was entered at all. -/
def tieredRetrieval (kbResult : String) (t2 : Tier2Outcome) : RetrievalResult × Bool :=
  if kbResult ≠ "" then
    (⟨kbResult, 0.95, ["Knowledge Base"]⟩, false)
  else
    (match t2 with
     | .settled e t => tier2Settled e t
     | .timedOut => ⟨"Search timed out.", 0.1, []⟩, true)

/-- `runUnifiedSearch(query)` from `src/lib/tavily-search.ts`: combine KB,
Exa and Tavily results into one labelled context block; confidence 0.9 when
any source is non-empty, else 0. Returns `(context, confidence)`. -/
def runUnifiedSearch (kbResult : String) (exaS tavilyS : Option String) : String × ℚ :=
  let exa := exaS.getD ""
  let tavily := tavilyS.getD ""
  let kbBlock :=
    if kbResult ≠ "" then
      "--- INTERNAL KNOWLEDGE BASE ---\n" ++ kbResult ++ "\n\n"
    else ""
  let webBlock :=
    if exa ≠ "" ∨ tavily ≠ "" then
      "--- REAL-TIME WEB SEARCH RESULTS ---\n" ++
      (if exa ≠ "" then "[Source: SIETK.org]: " ++ exa ++ "\n" else "") ++
      (if tavily ≠ "" then "[Source: Google/Web]: " ++ tavily ++ "\n" else "")
    else ""
  (kbBlock ++ webBlock, if kbResult ≠ "" ∨ exa ≠ "" ∨ tavily ≠ "" then 0.9 else 0.0)

/-- Settled outcome of one generation attempt (`callGemini`/`callGroq` raced
against their timer): `ok text` when the call resolved within its timeout
(possibly with `""` extracted from an unexpected payload), `failed` when it
threw, returned non-2xx, or the timer rejected first. -/
inductive AttemptOutcome where
  | ok (text : String)
  | failed
deriving DecidableEq, Repr

/-- The terminal fallback string literal of `generateWithFallback`. -/
def geminiFallbackMessage : String :=
  "I\x27m sorry, I\x27m having trouble connecting to my AI brain right now. Please try again in 10 seconds."

/-- `generateWithFallback(prompt, googleKey)`: try Gemini; on failure try
Groq only when `process.env.GROQ_API_KEY` is set; otherwise return the fixed
fallback message. The `Bool` records whether the Groq attempt was made. -/
def generateWithFallback (primary : AttemptOutcome) (groqKey : Option String)
    (secondary : AttemptOutcome) : String × Bool :=
  match primary with
  | .ok t => (t, false)
  | .failed =>
    match groqKey, secondary with
    | some _, .ok t => (t, true)
    | some _, .failed => (geminiFallbackMessage, true)
    | none, _ => (geminiFallbackMessage, false)

/-- `data.candidates?.[0]?.content?.parts?.[0]?.text || ""` in `callGemini`:
a missing field (`none`) or an empty extracted text both yield `""`. -/
def extractGeminiText (t : Option String) : String :=
  t.getD ""

/-- The record `{content, confidence}` that `buildProductionPrompt` actually
reads from its loosely-typed `retrieval` argument. -/
structure PromptContext where
  content : String
  confidence : ℚ
deriving DecidableEq, Repr

/-- `` `${m.role.toUpperCase()}: ${m.content}` `` for one history message. -/
def renderMsg (m : Message) : String :=
  upperStr m.role ++ ": " ++ m.content

/-- JS `Array.prototype.join(sep)`. -/
def joinWith (sep : String) : List String → String
  | [] => ""
  | x :: xs => xs.foldl (fun acc s => acc ++ sep ++ s) x

/-- JS `arr.slice(-n)` for `n > 0`: the last `min n arr.length` elements. -/
def takeLast {α : Type} (n : Nat) (l : List α) : List α :=
  l.drop (l.length - n)

/-- The history window of `buildProductionPrompt` in
`src/app/api/chat/route.ts`: `history.slice(-4)`. -/
def historyWindowRoute (history : List Message) : List Message :=
  takeLast 4 history

/-- The history window of `buildProductionPrompt` in
`src/lib/tavily-search.ts`: `history.slice(0, -1).slice(-4)`. -/
def historyWindowTavily (history : List Message) : List Message :=
  takeLast 4 history.dropLast

/-- `recentHistory` in the `route.ts` variant. -/
def recentHistoryRoute (history : List Message) : String :=
  joinWith "\n" ((historyWindowRoute history).map renderMsg)

/-- `recentHistory` in the `tavily-search.ts` variant. -/
def recentHistoryTavily (history : List Message) : String :=
  joinWith "\n" ((historyWindowTavily history).map renderMsg)

/-- The shared prompt template, parameterised by the already-rendered
recent-history block. -/
def promptTemplate (retrieval : PromptContext) (query recentHistory : String) : String :=
  "You are SIETK Assistant. Answer based on the CONTEXT provided.\n  \nCONTEXT (Confidence: " ++
  toString retrieval.confidence ++ "):\n" ++ retrieval.content ++
  "\n\nHISTORY:\n" ++ recentHistory ++
  "\n\nUSER QUESTION:\n" ++ query ++
  "\n\nINSTRUCTIONS:\n1. If the CONTEXT contains the answer, use it and cite it like this [1].\n2. If the answer is NOT in context, politely say you don\x27t know. Do NOT hallucinate.\n3. Be concise and helpful.\n4. Format nicely with markdown."

/-- `buildProductionPrompt` as written in `src/app/api/chat/route.ts`
(window `history.slice(-4)` — the current query is not removed). -/
def buildProductionPromptRoute (retrieval : PromptContext) (query : String)
    (history : List Message) : String :=
  promptTemplate retrieval query (recentHistoryRoute history)

/-- `buildProductionPrompt` as written in `src/lib/tavily-search.ts`
(window `history.slice(0, -1).slice(-4)` — current query removed first). -/
def buildProductionPromptTavily (retrieval : PromptContext) (query : String)
    (history : List Message) : String :=
  promptTemplate retrieval query (recentHistoryTavily history)

/-- The chunk size constant of `createStreamResponse`. -/
def chunkSize : Nat := 20

/-- The enqueue loop of `createStreamResponse` on the character list:
while the cursor has not passed the end, emit `text.slice(i, i + 20)` and
advance by 20. Fuel (`≥` the remaining length) makes the recursion
structural; each iteration consumes at least one character. -/
def chunksAux : Nat → List Char → List (List Char)
  | 0, _ => []
  | _ + 1, [] => []
  | fuel + 1, c :: cs => (c :: cs).take chunkSize :: chunksAux fuel ((c :: cs).drop chunkSize)

/-- The ordered list of chunks emitted by `createStreamResponse(text)`
before the stream is closed. -/
def chunkString (s : String) : List String :=
  (chunksAux s.data.length s.data).map String.mk

/-- Outcome of the whole HTTP handler. -/
inductive ApiResponse where
  | serverError
  | badRequest
  | streamed (body : String)
deriving DecidableEq, Repr

/-- Observable outcome of one `POST` invocation: the response, the cache
state afterwards, whether the search stage ran, and the `context` /
`confidence` pair fed to the prompt builder (`""` / `0` on paths that never
build a prompt). -/
structure PostOutcome where
  response : ApiResponse
  cache : List (String × CacheEntry)
  searchRan : Bool
  context : String
  confidence : ℚ
deriving DecidableEq, Repr

/-- Settled behaviour of the two generation attempts for one request. -/
structure GenBehavior where
  primary : AttemptOutcome
  secondary : AttemptOutcome
deriving DecidableEq, Repr

/-- The `POST` handler of `src/lib/tavily-search.ts`: credential check,
query extraction (`messages.slice(-1)[0]?.content`, falsy → 400), cache
lookup, general-chat classification, unified search for non-chat queries,
generation with fallback, and a cache write only for non-general-chat
turns. External effects are passed as oracles (`kbResult`, the settled
search results, `gen`). -/
def postTavily (hsh : String → String) (geminiKey groqKey : Option String)
    (kbResult : String) (exaS tavilyS : Option String) (gen : GenBehavior)
    (cache : List (String × CacheEntry)) (now : Int)
    (messages : List Message) : PostOutcome :=
  match geminiKey with
  | none => ⟨.serverError, cache, false, "", 0⟩
  | some _ =>
    match messages.getLast? with
    | none => ⟨.badRequest, cache, false, "", 0⟩
    | some last =>
      if last.content = "" then ⟨.badRequest, cache, false, "", 0⟩
      else
        match getCached hsh cache now last.content with
        | some cached => ⟨.streamed cached, cache, false, "", 0⟩
        | none =>
          if isGeneralChat last.content then
            ⟨.streamed (generateWithFallback gen.primary groqKey gen.secondary).1,
             cache, false, "", 0⟩
          else
            ⟨.streamed (generateWithFallback gen.primary groqKey gen.secondary).1,
             setCache hsh cache now last.content
               (generateWithFallback gen.primary groqKey gen.secondary).1,
             true, (runUnifiedSearch kbResult exaS tavilyS).1,
             (runUnifiedSearch kbResult exaS tavilyS).2⟩


/-! ## Helper lemmas -/

lemma runUnifiedSearch_conf_bounds (kb : String) (e t : Option String) :
    0 ≤ (runUnifiedSearch kb e t).2 ∧ (runUnifiedSearch kb e t).2 ≤ 1 := by
  simp only [runUnifiedSearch]
  split_ifs <;> norm_num

lemma tier2Settled_conf_bounds (e t : Option String) :
    0 ≤ (tier2Settled e t).confidence ∧ (tier2Settled e t).confidence ≤ 1 := by
  simp only [tier2Settled]
  split_ifs <;> norm_num

/-! ## Claim theorems -/

/-- **C3.** If the Tier-1 knowledge-base lookup returns non-empty content,
`tieredRetrieval` returns exactly that content with confidence 0.95 and
sources `["Knowledge Base"]`, the web-search flag is `false`, and the
result does not depend on the Tier-2 outcome (Tier 2 is never entered). -/
theorem c3_kb_short_circuit (kb : String) (t2 t2' : Tier2Outcome) (h : kb ≠ "") :
    tieredRetrieval kb t2 = (⟨kb, 0.95, ["Knowledge Base"]⟩, false) ∧
    tieredRetrieval kb t2 = tieredRetrieval kb t2' := by
  simp [tieredRetrieval, h]

/-- Witness for C3 at a concrete knowledge-base hit. -/
theorem c3_kb_short_circuit_witness :
    tieredRetrieval "Fee details for 2024" Tier2Outcome.timedOut =
      (⟨"Fee details for 2024", 0.95, ["Knowledge Base"]⟩, false) :=
  (c3_kb_short_circuit "Fee details for 2024" Tier2Outcome.timedOut
    (Tier2Outcome.settled none none) (by decide)).1

/-- **C4.** The Groq fallback is invoked iff the Gemini attempt failed or
timed out and a Groq credential is configured; when both attempts fail, or
the Gemini attempt fails with no Groq credential, the result is the fixed
static fallback message; a successful primary attempt is returned as-is.
The function is total, so it never itself throws or rejects. -/
theorem c4_fallback_chain (p : AttemptOutcome) (k : Option String) (s : AttemptOutcome) :
    ((generateWithFallback p k s).2 = true ↔ p = .failed ∧ k.isSome = true) ∧
    (p = .failed → k = none ∨ s = .failed →
      (generateWithFallback p k s).1 = geminiFallbackMessage) ∧
    (∀ t : String, p = .ok t → (generateWithFallback p k s).1 = t) := by
  cases p <;> cases k <;> cases s <;> simp [generateWithFallback]

/-- Witness for C4: both attempts fail with a configured Groq key. -/
theorem c4_fallback_chain_witness :
    (generateWithFallback .failed (some "gsk") .failed).1 = geminiFallbackMessage ∧
    (generateWithFallback .failed (some "gsk") .failed).2 = true :=
  ⟨(c4_fallback_chain .failed (some "gsk") .failed).2.1 rfl (Or.inr rfl),
   (c4_fallback_chain .failed (some "gsk") .failed).1.mpr ⟨rfl, rfl⟩⟩

/-- **C10.** A provider response of unexpected shape extracts to the empty
answer string, and on the empty string the stream emitter enqueues zero
chunks and closes at once: the emitted chunk list is empty. -/
theorem c10_empty_answer_stream :
    extractGeminiText none = "" ∧ chunkString (extractGeminiText none) = [] ∧
    chunkString "" = [] :=
  ⟨rfl, rfl, rfl⟩

/-- **C6.** Every confidence produced by any retrieval path — Tier 1, every
Tier-2 branch, the unified parallel-search variant, and the general-chat
skip inside the `POST` handler — lies in the closed interval [0, 1]. -/
theorem c6_confidence_range :
    (∀ (kb : String) (t2 : Tier2Outcome),
      0 ≤ (tieredRetrieval kb t2).1.confidence ∧ (tieredRetrieval kb t2).1.confidence ≤ 1) ∧
    (∀ (kb : String) (e t : Option String),
      0 ≤ (runUnifiedSearch kb e t).2 ∧ (runUnifiedSearch kb e t).2 ≤ 1) ∧
    (∀ (hsh : String → String) (gk grq : Option String) (kb : String)
      (e t : Option String) (gen : GenBehavior) (cache : List (String × CacheEntry))
      (now : Int) (msgs : List Message),
      0 ≤ (postTavily hsh gk grq kb e t gen cache now msgs).confidence ∧
      (postTavily hsh gk grq kb e t gen cache now msgs).confidence ≤ 1) := by
  refine ⟨fun kb t2 => ?_, runUnifiedSearch_conf_bounds, ?_⟩
  · unfold tieredRetrieval
    split_ifs with h
    · norm_num
    · cases t2 with
      | settled e t => exact tier2Settled_conf_bounds e t
      | timedOut => norm_num
  · intro hsh gk grq kb e t gen cache now msgs
    unfold postTavily
    cases gk with
    | none => norm_num
    | some k =>
      cases msgs.getLast? with
      | none => norm_num
      | some last =>
        dsimp only
        by_cases h1 : last.content = ""
        · rw [if_pos h1]; norm_num
        · rw [if_neg h1]
          cases getCached hsh cache now last.content with
          | some cached => norm_num
          | none =>
            dsimp only
            by_cases h2 : isGeneralChat last.content = true
            · rw [if_pos h2]; norm_num
            · rw [if_neg h2]; exact runUnifiedSearch_conf_bounds kb e t

/-- **C2.** For every request whose query is classified as general chat,
`setCache` is never reached in the `POST` handler of
`src/lib/tavily-search.ts`, so the response cache after the request equals
the cache before it. (The `route.ts` entry point performs no general-chat
classification at all.) -/
theorem c2_general_chat_cache_frame (hsh : String → String)
    (gk grq : Option String) (kb : String) (e t : Option String)
    (gen : GenBehavior) (cache : List (String × CacheEntry)) (now : Int)
    (msgs : List Message) (last : Message)
    (hl : msgs.getLast? = some last) (hg : isGeneralChat last.content = true) :
    (postTavily hsh gk grq kb e t gen cache now msgs).cache = cache := by
  unfold postTavily
  cases gk with
  | none => rfl
  | some k =>
    rw [hl]
    dsimp only
    split_ifs with h1
    · rfl
    · cases getCached hsh cache now last.content with
      | some cached => rfl
      | none => simp [hg]

/-- Witness for C2: the query `"hello"` is general chat and leaves the
(empty) cache untouched. -/
theorem c2_general_chat_cache_frame_witness :
    (postTavily id (some "g") none "" none none ⟨.failed, .failed⟩ [] 0
      [⟨"user", "hello"⟩]).cache = [] :=
  c2_general_chat_cache_frame id (some "g") none "" none none ⟨.failed, .failed⟩
    [] 0 [⟨"user", "hello"⟩] ⟨"user", "hello"⟩ rfl (by decide)

lemma cacheLookup_cacheInsert_self (cache : List (String × CacheEntry))
    (k : String) (e : CacheEntry) :
    cacheLookup (cacheInsert cache k e) k = some e := by
  induction cache with
  | nil => simp [cacheInsert, cacheLookup]
  | cons p rest ih =>
    obtain ⟨k', e'⟩ := p
    simp only [cacheInsert]
    by_cases h : k' = k
    · rw [if_pos h]; simp [cacheLookup]
    · rw [if_neg h]; simpa [cacheLookup, h] using ih

lemma cacheLookup_cacheInsert_ne (cache : List (String × CacheEntry))
    (k : String) (e : CacheEntry) (k' : String) (h : k' ≠ k) :
    cacheLookup (cacheInsert cache k e) k' = cacheLookup cache k' := by
  induction cache with
  | nil => simp [cacheInsert, cacheLookup, Ne.symm h]
  | cons p rest ih =>
    obtain ⟨k1, e1⟩ := p
    simp only [cacheInsert]
    by_cases h1 : k1 = k
    · rw [if_pos h1]
      simp [cacheLookup, Ne.symm h, h1]
    · rw [if_neg h1]
      simp only [cacheLookup]
      by_cases h2 : k1 = k'
      · simp [h2]
      · simpa [h2] using ih

/-- **C7.** `getCached` returns the stored answer iff an entry exists under
the hash of the normalised (lower-cased, trimmed) query whose age
`now - createdAt` is strictly below the TTL (3 600 000 ms = 3600 s);
otherwise it misses without mutating the store (the model's `getCached` is
pure), the entry staying present until `setCache` overwrites that key —
and a `setCache` for the same key does overwrite it while leaving every
other key unchanged. -/
theorem c7_cache_get_semantics (hsh : String → String)
    (cache : List (String × CacheEntry)) (now : Int) (q a ans : String)
    (now2 : Int) (k' : String) :
    (getCached hsh cache now q = some a ↔
      ∃ e, cacheLookup cache (cacheKeyOf hsh q) = some e ∧
        now - e.timestamp < 3600000 ∧ a = e.answer) ∧
    cacheLookup (setCache hsh cache now2 q ans) (cacheKeyOf hsh q) = some ⟨ans, now2⟩ ∧
    (k' ≠ cacheKeyOf hsh q →
      cacheLookup (setCache hsh cache now2 q ans) k' = cacheLookup cache k') := by
  refine ⟨?_, cacheLookup_cacheInsert_self cache _ _,
    fun h => cacheLookup_cacheInsert_ne cache _ _ k' h⟩
  unfold getCached
  cases hc : cacheLookup cache (cacheKeyOf hsh q) with
  | none => simp
  | some e =>
    by_cases ht : now - e.timestamp < 3600000
    · simp [ht, eq_comm]
    · simp [ht]

/-- Witness for C7: a fresh entry is a hit, `setCache` overwrites it, and an
unrelated key is untouched. -/
theorem c7_cache_get_semantics_witness :
    getCached id [("hello", ⟨"ans", 0⟩)] 10 " Hello" = some "ans" ∧
    cacheLookup (setCache id [("hello", ⟨"ans", 0⟩)] 5 " Hello" "new") "hello" =
      some ⟨"new", 5⟩ ∧
    cacheLookup (setCache id [("hello", ⟨"ans", 0⟩)] 5 " Hello" "new") "zzz" =
      cacheLookup [("hello", ⟨"ans", 0⟩)] "zzz" :=
  ⟨(c7_cache_get_semantics id [("hello", ⟨"ans", 0⟩)] 10 " Hello" "ans" "new" 5 "zzz").1.mpr
      ⟨⟨"ans", 0⟩, by decide, by decide, rfl⟩,
   (c7_cache_get_semantics id [("hello", ⟨"ans", 0⟩)] 10 " Hello" "ans" "new" 5 "zzz").2.1,
   (c7_cache_get_semantics id [("hello", ⟨"ans", 0⟩)] 10 " Hello" "ans" "new" 5 "zzz").2.2
      (by decide)⟩

/-- **C9.** The classifier marks a query as general chat iff the whole
whitespace-trimmed query matches, case-insensitively, one of the fixed
greeting/closing phrases (so any query with extra words is never general
chat); and a request so classified skips retrieval entirely, with empty
context and confidence 0. -/
theorem c9_general_chat_classifier :
    (∀ q : String, isGeneralChat q = true ↔ lowerStr (trimStr q) ∈ generalChatPhrases) ∧
    (∀ (hsh : String → String) (gk grq : Option String) (kb : String)
      (e t : Option String) (gen : GenBehavior) (cache : List (String × CacheEntry))
      (now : Int) (msgs : List Message) (last : Message),
      msgs.getLast? = some last → isGeneralChat last.content = true →
      (postTavily hsh gk grq kb e t gen cache now msgs).searchRan = false ∧
      (postTavily hsh gk grq kb e t gen cache now msgs).context = "" ∧
      (postTavily hsh gk grq kb e t gen cache now msgs).confidence = 0) := by
  constructor
  · intro q
    simp [isGeneralChat]
  · intro hsh gk grq kb e t gen cache now msgs last hl hg
    unfold postTavily
    cases gk with
    | none => exact ⟨rfl, rfl, rfl⟩
    | some k =>
      rw [hl]
      dsimp only
      by_cases h1 : last.content = ""
      · rw [if_pos h1]; exact ⟨rfl, rfl, rfl⟩
      · rw [if_neg h1]
        cases getCached hsh cache now last.content with
        | some cached => exact ⟨rfl, rfl, rfl⟩
        | none =>
          dsimp only
          rw [if_pos hg]
          exact ⟨rfl, rfl, rfl⟩

/-- Witness for C9: `"  HELLO "` is general chat, `"hello there"` is not,
and a `"thanks"` request never runs the search stage. -/
theorem c9_general_chat_classifier_witness :
    isGeneralChat "  HELLO " = true ∧
    isGeneralChat "hello there" = false ∧
    (postTavily id (some "g") none "KB" (some "w") none ⟨.ok "resp", .failed⟩ [] 0
      [⟨"user", "thanks"⟩]).searchRan = false :=
  ⟨(c9_general_chat_classifier.1 "  HELLO ").mpr (by decide),
   by decide,
   (c9_general_chat_classifier.2 id (some "g") none "KB" (some "w") none
      ⟨.ok "resp", .failed⟩ [] 0 [⟨"user", "thanks"⟩] ⟨"user", "thanks"⟩ rfl
      (by decide)).1⟩

lemma chunksAux_flatten : ∀ (fuel : Nat) (l : List Char), l.length ≤ fuel →
    (chunksAux fuel l).flatten = l := by
  intro fuel
  induction fuel with
  | zero =>
    intro l h
    have : l = [] := List.eq_nil_of_length_eq_zero (Nat.le_zero.mp h)
    subst this
    rfl
  | succ n ih =>
    intro l h
    cases l with
    | nil => rfl
    | cons c cs =>
      simp only [chunksAux, List.flatten_cons]
      rw [ih ((c :: cs).drop chunkSize) ?_]
      · exact List.take_append_drop chunkSize (c :: cs)
      · have h20 : chunkSize = 20 := rfl
        simp only [List.length_drop, List.length_cons] at h ⊢
        omega

lemma chunksAux_ne_nil (fuel : Nat) (l : List Char)
    (h : chunksAux fuel l ≠ []) : l ≠ [] := by
  cases fuel with
  | zero => simp [chunksAux] at h
  | succ n =>
    cases l with
    | nil => simp [chunksAux] at h
    | cons c cs => exact List.cons_ne_nil c cs

lemma chunksAux_sizes : ∀ (fuel : Nat) (l : List Char),
    ∀ c ∈ chunksAux fuel l, 0 < c.length ∧ c.length ≤ chunkSize := by
  intro fuel
  induction fuel with
  | zero => intro l c hc; simp [chunksAux] at hc
  | succ n ih =>
    intro l c hc
    cases l with
    | nil => simp [chunksAux] at hc
    | cons x xs =>
      simp only [chunksAux] at hc
      rcases List.mem_cons.mp hc with h | h
      · subst h
        have h20 : chunkSize = 20 := rfl
        simp only [List.length_take, List.length_cons]
        constructor
        · omega
        · omega
      · exact ih _ c h

lemma chunksAux_dropLast_sizes : ∀ (fuel : Nat) (l : List Char),
    ∀ c ∈ (chunksAux fuel l).dropLast, c.length = chunkSize := by
  intro fuel
  induction fuel with
  | zero => intro l c hc; simp [chunksAux] at hc
  | succ n ih =>
    intro l c hc
    cases l with
    | nil => simp [chunksAux] at hc
    | cons x xs =>
      simp only [chunksAux] at hc
      cases hrest : chunksAux n ((x :: xs).drop chunkSize) with
      | nil => rw [hrest] at hc; simp at hc
      | cons r rs =>
        rw [hrest, List.dropLast_cons₂] at hc
        rcases List.mem_cons.mp hc with h | h
        · subst h
          have hne : (x :: xs).drop chunkSize ≠ [] :=
            chunksAux_ne_nil n _ (by rw [hrest]; exact List.cons_ne_nil r rs)
          have hlen : chunkSize < (x :: xs).length := by
            by_contra hcon
            exact hne (List.drop_eq_nil_iff.mpr (by omega))
          have h20 : chunkSize = 20 := rfl
          simp only [List.length_take]
          omega
        · rw [← hrest] at h
          exact ih _ c h

lemma foldl_append_data (l : List String) : ∀ acc : String,
    (l.foldl (fun r s => r ++ s) acc).data = acc.data ++ (l.map String.data).flatten := by
  induction l with
  | nil => intro acc; simp
  | cons s ss ih =>
    intro acc
    simp only [List.foldl_cons, List.map_cons, List.flatten_cons]
    rw [ih (acc ++ s), String.data_append, List.append_assoc]

lemma string_join_data (l : List String) :
    (String.join l).data = (l.map String.data).flatten := by
  have h : String.join l = l.foldl (fun r s => r ++ s) "" := rfl
  rw [h, foldl_append_data]
  rfl

/-- **C5.** The stream emitter splits the answer into chunks of exactly 20
units, the last chunk alone possibly shorter (but never empty), in original
order; concatenating all emitted chunks reconstructs the input string
exactly. -/
theorem c5_stream_rechunk (s : String) :
    String.join (chunkString s) = s ∧
    (∀ c ∈ (chunkString s).dropLast, c.length = chunkSize) ∧
    (∀ c ∈ chunkString s, 0 < c.length ∧ c.length ≤ chunkSize) := by
  refine ⟨?_, ?_, ?_⟩
  · apply String.ext
    rw [string_join_data]
    unfold chunkString
    rw [List.map_map]
    have hmap : (String.data ∘ String.mk) = id := by funext l; rfl
    rw [hmap, List.map_id]
    exact chunksAux_flatten s.data.length s.data le_rfl
  · intro c hc
    unfold chunkString at hc
    rw [← List.map_dropLast] at hc
    rcases List.mem_map.mp hc with ⟨cl, hcl, rfl⟩
    exact chunksAux_dropLast_sizes s.data.length s.data cl hcl
  · intro c hc
    unfold chunkString at hc
    rcases List.mem_map.mp hc with ⟨cl, hcl, rfl⟩
    exact chunksAux_sizes s.data.length s.data cl hcl

/-- Witness for C5 on a 26-character answer: two chunks, the first of
exactly 20 units, concatenating to the original. -/
theorem c5_stream_rechunk_witness :
    String.join (chunkString "abcdefghijklmnopqrstuvwxyz") = "abcdefghijklmnopqrstuvwxyz" ∧
    ("abcdefghijklmnopqrst" : String).length = chunkSize :=
  ⟨(c5_stream_rechunk "abcdefghijklmnopqrstuvwxyz").1,
   (c5_stream_rechunk "abcdefghijklmnopqrstuvwxyz").2.1 "abcdefghijklmnopqrst" (by decide)⟩

/-- **C1, counterexample.** In the `route.ts` prompt builder the history
window is `history.slice(-4)`: with history `[USER "a", USER "q"]` and
current query `"q"` (the last message), the rendered HISTORY block is
`"USER: a\nUSER: q"` — it still contains the current query, unlike the
claimed behaviour, which the `tavily-search.ts` builder implements. -/
theorem c1_counterexample :
    recentHistoryRoute [⟨"user", "a"⟩, ⟨"user", "q"⟩] = "USER: a\nUSER: q" ∧
    recentHistoryTavily [⟨"user", "a"⟩, ⟨"user", "q"⟩] = "USER: a" ∧
    recentHistoryRoute [⟨"user", "a"⟩, ⟨"user", "q"⟩] ≠
      recentHistoryTavily [⟨"user", "a"⟩, ⟨"user", "q"⟩] := by
  refine ⟨by decide, by decide, by decide⟩

/-- **C1, amended.** The `tavily-search.ts` prompt builder excludes the
current query (the last message) and renders at most the last 4 remaining
messages in original order, so there the current query appears only in the
USER QUESTION section; the `route.ts` builder instead renders at most the
last 4 messages of the full history, a window that still ends with the
current query. -/
theorem c1_history_window (history : List Message) (hne : history ≠ []) :
    historyWindowTavily history <:+ history.dropLast ∧
    (historyWindowTavily history).length ≤ 4 ∧
    historyWindowRoute history <:+ history ∧
    (historyWindowRoute history).length ≤ 4 ∧
    (historyWindowRoute history).getLast? = history.getLast? := by
  refine ⟨List.drop_suffix _ _, ?_, List.drop_suffix _ _, ?_, ?_⟩
  · simp only [historyWindowTavily, takeLast, List.length_drop]
    omega
  · simp only [historyWindowRoute, takeLast, List.length_drop]
    omega
  · unfold historyWindowRoute takeLast
    have hlen : 0 < history.length := List.length_pos.mpr hne
    have hd : history.drop (history.length - 4) ≠ [] := by
      rw [Ne, List.drop_eq_nil_iff]
      omega
    conv_rhs => rw [← List.take_append_drop (history.length - 4) history]
    rw [List.getLast?_append_of_ne_nil _ hd]

/-- Witness for the amended C1 at a one-message history: the tavily window
is inside the empty remaining history, while the route window still ends
with the current query. -/
theorem c1_history_window_witness :
    historyWindowTavily [⟨"user", "q"⟩] <:+ ([⟨"user", "q"⟩] : List Message).dropLast ∧
    (historyWindowRoute [⟨"user", "q"⟩]).getLast? = some ⟨"user", "q"⟩ :=
  ⟨(c1_history_window [⟨"user", "q"⟩] (by decide)).1,
   ((c1_history_window [⟨"user", "q"⟩] (by decide)).2.2.2.2).trans rfl⟩

/-- **C8, counterexample.** With the Exa call fulfilled as `"A"` and the
Tavily call rejected, the merged content is the full fixed template
`"EXA: A\n\nTAVILY: "`: the failed source's `TAVILY:` label still occurs in
the content, so the merge does not consist of the non-empty sources only. -/
theorem c8_counterexample :
    (tier2Settled (some "A") none).content = "EXA: A\n\nTAVILY: " ∧
    "TAVILY".data <:+: (tier2Settled (some "A") none).content.data := by
  refine ⟨by decide, by decide⟩

/-- **C8, amended.** When both search calls settle before the timeout, the
content is the fixed template `EXA: <exa>\n\nTAVILY: <tavily>` in which a
rejected call behaves exactly like one fulfilled with the empty string
(both labels appear even for a failed or empty call); the confidence is
0.85 iff at least one source produced content, and when neither did the
result is content `"No information found."` with confidence 0. -/
theorem c8_tier2_merge (e t : Option String) :
    tier2Settled e t = tier2Settled (some (e.getD "")) (some (t.getD "")) ∧
    ((tier2Settled e t).confidence = 0.85 ↔ ¬(e.getD "" = "" ∧ t.getD "" = "")) ∧
    (e.getD "" = "" → t.getD "" = "" →
      tier2Settled e t = ⟨"No information found.", 0, []⟩) ∧
    (¬(e.getD "" = "" ∧ t.getD "" = "") →
      (tier2Settled e t).content = "EXA: " ++ e.getD "" ++ "\n\nTAVILY: " ++ t.getD "" ∧
      (tier2Settled e t).confidence = 0.85) := by
  refine ⟨by cases e <;> cases t <;> rfl, ?_, ?_, ?_⟩
  · by_cases h : e.getD "" = "" ∧ t.getD "" = ""
    · simp only [tier2Settled, if_pos h]
      norm_num [h]
    · simp only [tier2Settled, if_neg h]
      simpa using h
  · intro h1 h2
    simp only [tier2Settled, if_pos (And.intro h1 h2)]
  · intro h
    simp [tier2Settled, if_neg h]

/-- Witness for the amended C8: Exa fulfilled `"A"`, Tavily rejected. -/
theorem c8_tier2_merge_witness :
    (tier2Settled (some "A") none).content = "EXA: A\n\nTAVILY: " ∧
    (tier2Settled (some "A") none).confidence = 0.85 :=
  (c8_tier2_merge (some "A") none).2.2.2 (by decide)
